import Mathlib

/-!
Shallow embedding of `scripts/ModelTraining/train_frame_importance.py`.

Numeric values are modelled as rationals (every IEEE float value is a
rational).  The numpy global random generator is modelled as an environment
of per-distribution draw streams keyed by the generator state: calling
`np.random.seed(42)` fixes the state to `42`, and each subsequent draw reads
a stream at that state.  The environment additionally carries the generator
state at process entry and an OS-entropy stream; the script never consults
either, because it seeds the generator before drawing, and this is what the
determinism claim is about.
-/

namespace TrainFrameImportance

/-- Environment supplying the numpy random draws.  `uniform s c i` is the
`i`-th raw uniform draw (in `[0,1)`) of call site `c` under generator state
`s`; `normal` supplies standard-normal draws and `choice` boolean draws the
same way.  `entryState` is the generator state at interpreter startup and
`entropy` an OS entropy source; neither is read by the script. -/
structure NumpyEnv where
  uniform : ℕ → ℕ → ℕ → ℚ
  normal : ℕ → ℕ → ℕ → ℚ
  choice : ℕ → ℕ → ℕ → Bool
  entryState : ℕ
  entropy : ℕ → ℚ

/-- `np.random.uniform(a, b)` applied to a raw uniform draw `u ∈ [0,1)`. -/
def uniformIn (a b u : ℚ) : ℚ := a + (b - a) * u

/-- `np.clip(x, lo, hi)`. -/
def clip (x lo hi : ℚ) : ℚ := min (max x lo) hi

/-- The `n_samples = 1000` constant of `create_sample_data`. -/
def n_samples : ℕ := 1000

/-- The seed passed to `np.random.seed` in `create_sample_data`. -/
def sampleSeed : ℕ := 42

/-- The columns of the `data` dict built by `create_sample_data`, as
per-row value functions, together with the derived importance score. -/
structure SampleData where
  frameIndex : ℕ → ℚ
  timestamp : ℕ → ℚ
  isKeyFrame : ℕ → Bool
  visualComplexity : ℕ → ℚ
  colorVariance : ℕ → ℚ
  edgeDensity : ℕ → ℚ
  brightness : ℕ → ℚ
  contrast : ℕ → ℚ
  aspectRatio : ℕ → ℚ
  importanceScore : ℕ → ℚ

/-- The body of `create_sample_data`: seeds the generator with 42, draws the
feature columns, then builds the importance score as the weighted sum of
features, plus the key-frame bonus (`np.where(IsKeyFrame, 0.15, 0)`), plus
`np.random.normal(0, 0.05)` noise, clipped to `[0, 1]`. -/
def sampleData (env : NumpyEnv) : SampleData :=
  let s := sampleSeed
  let timestamp : ℕ → ℚ := fun i => uniformIn 0 300 (env.uniform s 0 i)
  let isKeyFrame : ℕ → Bool := fun i => env.choice s 1 i
  let visualComplexity : ℕ → ℚ := fun i => uniformIn 0.3 0.9 (env.uniform s 2 i)
  let colorVariance : ℕ → ℚ := fun i => uniformIn 0.2 0.8 (env.uniform s 3 i)
  let edgeDensity : ℕ → ℚ := fun i => uniformIn 0.1 0.9 (env.uniform s 4 i)
  let brightness : ℕ → ℚ := fun i => uniformIn 0.2 0.9 (env.uniform s 5 i)
  let contrast : ℕ → ℚ := fun i => uniformIn 0.3 0.8 (env.uniform s 6 i)
  let importanceBase : ℕ → ℚ := fun i =>
    visualComplexity i * 0.3 + edgeDensity i * 0.25 + contrast i * 0.2 +
      colorVariance i * 0.15 + |brightness i - 0.5| * 0.1
  let importanceKeyed : ℕ → ℚ := fun i =>
    importanceBase i + (if isKeyFrame i then 0.15 else 0)
  let importanceNoised : ℕ → ℚ := fun i =>
    importanceKeyed i + (0 + 0.05 * env.normal s 7 i)
  { frameIndex := fun i => (i : ℚ)
    timestamp := timestamp
    isKeyFrame := isKeyFrame
    visualComplexity := visualComplexity
    colorVariance := colorVariance
    edgeDensity := edgeDensity
    brightness := brightness
    contrast := contrast
    aspectRatio := fun _ => 1.778
    importanceScore := fun i => clip (importanceNoised i) 0 1 }

/-- A pandas DataFrame: a row count and named columns of per-row values
(booleans stored as 0/1). -/
structure DataFrame where
  nrows : ℕ
  cols : List (String × (ℕ → ℚ))

/-- Column lookup, `df[name]` for a single label. -/
def DataFrame.getCol (df : DataFrame) (name : String) : Option (ℕ → ℚ) :=
  (df.cols.find? (fun c => c.fst == name)).map Prod.snd

/-- `create_sample_data()`: the returned `pd.DataFrame(data)`, columns in
dict-insertion order. -/
def create_sample_data (env : NumpyEnv) : DataFrame :=
  let d := sampleData env
  ⟨n_samples,
   [("FrameIndex", d.frameIndex), ("Timestamp", d.timestamp),
    ("IsKeyFrame", fun i => if d.isKeyFrame i then 1 else 0),
    ("VisualComplexity", d.visualComplexity),
    ("ColorVariance", d.colorVariance),
    ("EdgeDensity", d.edgeDensity),
    ("Brightness", d.brightness),
    ("Contrast", d.contrast),
    ("AspectRatio", d.aspectRatio),
    ("ImportanceScore", d.importanceScore)]⟩

/-- The `feature_columns` list of `load_training_data`. -/
def feature_columns : List String :=
  ["VisualComplexity", "ColorVariance", "EdgeDensity",
   "Brightness", "Contrast", "AspectRatio"]

/-- Python exceptions that the script can raise: a failed unguarded module
load at startup (ImportError for pandas or numpy, source lines 21-22, which
sit outside the try/except), a CSV parse failure, or a missing column
(KeyError). -/
inductive PyError where
  | moduleNotFound (modName : String)
  | parseError
  | keyError (col : String)
  deriving DecidableEq

/-- Outcome of `pd.read_csv(data_path)`: the file may be absent
(`FileNotFoundError`), unparsable (any other exception), or parse to a
DataFrame. -/
inductive ReadCSV where
  | fileNotFound
  | parseError
  | ok (df : DataFrame)

/-- `df[feature_columns]`: select the named columns in the given order;
a missing label raises `KeyError`. -/
def selectCols (df : DataFrame) : List String → Except PyError (List (String × (ℕ → ℚ)))
  | [] => .ok []
  | c :: cs =>
    match df.getCol c with
    | none => .error (.keyError c)
    | some v =>
      match selectCols df cs with
      | .error e => .error e
      | .ok rest => .ok ((c, v) :: rest)

/-- One line printed to standard output, abstracted over number formatting. -/
inductive OutputLine where
  | separator
  | title
  | loadingData (path : List String)
  | fileNotFoundMsg (path : List String)
  | creatingSampleMsg
  | datasetSize (n : ℕ)
  | featuresList (names : List String)
  | trainingSetSize (n : ℕ)
  | testSetSize (n : ℕ)
  | trainingModel
  | trainingResults
  | trainMSE (v : ℚ)
  | testMSE (v : ℚ)
  | trainR2 (v : ℚ)
  | testR2 (v : ℚ)
  | featureImportancesHeader
  | importanceEntry (nm : String) (v : ℚ)
  | modelSaved (path : List String)
  | trainingComplete
  | packagesMissing
  | installHint

/-- `load_training_data(data_path)`: prints a loading message, reads the
CSV; only `FileNotFoundError` is caught (substituting `create_sample_data`),
any other read error propagates; then selects `feature_columns` as `X` and
`ImportanceScore` as `y` (a missing column raises `KeyError`, uncaught).
Returns the printed lines alongside the result. -/
def load_training_data (env : NumpyEnv) (data_path : List String)
    (read : ReadCSV) : List OutputLine × Except PyError (DataFrame × (ℕ → ℚ)) :=
  let dfRes : List OutputLine × Except PyError DataFrame :=
    match read with
    | .ok df => ([.loadingData data_path], .ok df)
    | .parseError => ([.loadingData data_path], .error .parseError)
    | .fileNotFound =>
      ([.loadingData data_path, .fileNotFoundMsg data_path, .creatingSampleMsg],
       .ok (create_sample_data env))
  match dfRes.2 with
  | .error e => (dfRes.1, .error e)
  | .ok df =>
    match selectCols df feature_columns with
    | .error e => (dfRes.1, .error e)
    | .ok xcols =>
      match df.getCol "ImportanceScore" with
      | none => (dfRes.1, .error (.keyError "ImportanceScore"))
      | some y => (dfRes.1, .ok (⟨df.nrows, xcols⟩, y))

/-- A fitted `RandomForestRegressor`: opaque except for its
`feature_importances_` vector. -/
structure FittedModel where
  importances : List ℚ

/-- Modelled from the spec: scikit-learn and joblib are not under `src/`.
Per the spec, the trainer is an opaque deterministic fit exposing one
nonnegative per-feature importance, the importances summing to 1 (for a
nonempty feature set), with opaque prediction and metric functions; the
splitter deterministically shuffles rows with the given seed
(`shuffle s n i` is where row `i` lands under seed `s` on `n` rows). -/
structure SklearnEnv where
  fit : DataFrame → (ℕ → ℚ) → FittedModel
  fit_features : ∀ X y, (fit X y).importances.length = X.cols.length
  fit_nonneg : ∀ X y, ∀ v ∈ (fit X y).importances, 0 ≤ v
  fit_sum : ∀ X y, X.cols ≠ [] → (fit X y).importances.sum = 1
  predict : FittedModel → DataFrame → ℕ → ℚ
  mse : (ℕ → ℚ) → (ℕ → ℚ) → ℕ → ℚ
  r2 : (ℕ → ℚ) → (ℕ → ℚ) → ℕ → ℚ
  shuffle : ℕ → ℕ → ℕ → ℕ

/-- The seed passed to `train_test_split` and `RandomForestRegressor`. -/
def modelSeed : ℕ := 42

/-- Remap a DataFrame to the rows `σ 0, σ 1, …` keeping `count` of them. -/
def DataFrame.takeRows (df : DataFrame) (count : ℕ) (σ : ℕ → ℕ) : DataFrame :=
  ⟨count, df.cols.map (fun c => (c.fst, fun i => c.snd (σ i)))⟩

/-- Modelled from the spec: `sklearn.model_selection.train_test_split` is
not under `src/`.  Per the spec it deterministically shuffles with the
given seed and partitions at the caller-specified fraction, the test subset
holding `round(test_size * len(data))` rows and the training subset the
rest.  Returns `(X_train, X_test, y_train, y_test)`. -/
def train_test_split (sk : SklearnEnv) (X : DataFrame) (y : ℕ → ℚ)
    (test_size : ℚ) : DataFrame × DataFrame × (ℕ → ℚ) × (ℕ → ℚ) :=
  let n := X.nrows
  let t := (round (test_size * (n : ℚ))).toNat
  let σ := sk.shuffle modelSeed n
  let testRows : ℕ → ℕ := fun i => σ i
  let trainRows : ℕ → ℕ := fun i => σ (t + i)
  (X.takeRows (n - t) trainRows, X.takeRows t testRows,
   fun i => y (trainRows i), fun i => y (testRows i))

/-- The descending comparison used by the feature-importance report:
`sorted(..., key=lambda x: x[1], reverse=True)`. -/
def impGE (a b : String × ℚ) : Prop := b.2 ≤ a.2

instance : DecidableRel impGE := fun a b => inferInstanceAs (Decidable (b.2 ≤ a.2))

instance : IsTotal (String × ℚ) impGE := ⟨fun a b => le_total b.2 a.2⟩

instance : IsTrans (String × ℚ) impGE := ⟨fun _ _ _ h₁ h₂ => le_trans h₂ h₁⟩

/-- The rows of the feature-importance report: feature names zipped with
importances, sorted by importance descending. -/
def reportRows (names : List String) (imps : List ℚ) : List (String × ℚ) :=
  List.insertionSort impGE (names.zip imps)

/-- `train_model(X_train, y_train, X_test, y_test)`: fits the forest,
prints the metrics and the descending feature-importance report, and
returns the model together with the printed lines. -/
def train_model (sk : SklearnEnv) (X_train : DataFrame) (y_train : ℕ → ℚ)
    (X_test : DataFrame) (y_test : ℕ → ℚ) : List OutputLine × FittedModel :=
  let m := sk.fit X_train y_train
  let trainPred := sk.predict m X_train
  let testPred := sk.predict m X_test
  let entries := reportRows (X_train.cols.map Prod.fst) m.importances
  ([.trainingModel, .trainingResults,
    .trainMSE (sk.mse y_train trainPred X_train.nrows),
    .testMSE (sk.mse y_test testPred X_test.nrows),
    .trainR2 (sk.r2 y_train trainPred X_train.nrows),
    .testR2 (sk.r2 y_test testPred X_test.nrows),
    .featureImportancesHeader] ++
     entries.map (fun r => OutputLine.importanceEntry r.1 r.2),
   m)

/-- A filesystem: a set of existing directories and a map from file paths
to byte contents, paths as component lists. -/
structure FileSystem where
  dirs : List (List String)
  files : List (List String × List ℕ)

/-- Contents of the file at `p`, if present. -/
def FileSystem.readFile (fs : FileSystem) (p : List String) : Option (List ℕ) :=
  (fs.files.find? (fun f => f.fst == p)).map Prod.snd

/-- `Path.parent`: the path with its final component removed. -/
def parentDir (p : List String) : List String := p.dropLast

/-- All nonempty ancestors of a path, outermost first. -/
def ancestors : List String → List (List String)
  | [] => []
  | x :: xs => [x] :: (ancestors xs).map (x :: ·)

/-- `path.mkdir(parents=True, exist_ok=True)`: records the directory and
every ancestor as existing; by `exist_ok` and `parents` it never fails,
whether or not any of them already exist. -/
def mkdirParents (fs : FileSystem) (d : List String) : FileSystem :=
  ⟨ancestors d ++ fs.dirs, fs.files⟩

/-- Overwrite (or create) the file at `p` with contents `bs`. -/
def FileSystem.writeFile (fs : FileSystem) (p : List String) (bs : List ℕ) : FileSystem :=
  ⟨fs.dirs, (p, bs) :: fs.files.filter (fun f => f.fst != p)⟩

/-- Modelled from the spec: `joblib.dump` is not under `src/`.  Per the
spec it serializes the fitted model in its entirety to a single file; a
pickle stream is never empty, modelled as a protocol tag byte followed by
an encoding of the learned parameters. -/
def serializeModel (m : FittedModel) : List ℕ :=
  128 :: m.importances.map (fun q => q.num.natAbs + q.den)

/-- `save_model(model, output_path)`: creates the parent directories, dumps
the model, prints the saved-path line. -/
def save_model (fs : FileSystem) (m : FittedModel) (output_path : List String) :
    List OutputLine × FileSystem :=
  ([.modelSaved output_path],
   (mkdirParents fs (parentDir output_path)).writeFile output_path (serializeModel m))

/-- Parsed command-line arguments with their defaults. -/
structure Args where
  data_path : List String
  output_path : List String
  test_size : ℚ

/-- The argparse defaults. -/
def defaultArgs : Args :=
  ⟨["training-data", "frames.csv"], ["models", "frame-importance-model.pkl"], 0.2⟩

/-- Result of one process invocation: exit status, standard-output lines,
the uncaught exception if one terminated the run, and the final filesystem. -/
structure RunResult where
  exitCode : ℕ
  output : List OutputLine
  uncaught : Option PyError
  fs : FileSystem

/-- One invocation of the script.  The module-level `pandas` and `numpy`
loads (source lines 21-22) sit outside the try/except: if either is
missing the interpreter dies with an uncaught ImportError — exit status 1,
nothing on standard output, no remediation message.  Only the guarded
block (scikit-learn, joblib) prints the remediation lines and calls
`sys.exit(1)`.  With every library present, run `main()`: load data,
split, train, save; an exception from loading propagates uncaught and the
interpreter exits with status 1; otherwise the process exits 0 after the
full print sequence. -/
def runScript (pandasAvailable numpyAvailable sklearnAvailable : Bool)
    (env : NumpyEnv) (sk : SklearnEnv) (read : ReadCSV) (fs : FileSystem)
    (args : Args) : RunResult :=
  if pandasAvailable then
    if numpyAvailable then
      if sklearnAvailable then
        let header : List OutputLine := [.separator, .title, .separator]
        let lr := load_training_data env args.data_path read
        match lr.2 with
        | .error e => ⟨1, header ++ lr.1, some e, fs⟩
        | .ok (X, y) =>
          let sizeLines : List OutputLine :=
            [.datasetSize X.nrows, .featuresList (X.cols.map Prod.fst)]
          let split := train_test_split sk X y args.test_size
          let splitLines : List OutputLine :=
            [.trainingSetSize split.1.nrows, .testSetSize split.2.1.nrows]
          let tm := train_model sk split.1 split.2.2.1 split.2.1 split.2.2.2
          let sv := save_model fs tm.2 args.output_path
          let footer : List OutputLine := [.separator, .trainingComplete, .separator]
          ⟨0, header ++ lr.1 ++ sizeLines ++ splitLines ++ tm.1 ++ sv.1 ++ footer,
           none, sv.2⟩
      else
        ⟨1, [.packagesMissing, .installHint], none, fs⟩
    else
      ⟨1, [], some (.moduleNotFound "numpy"), fs⟩
  else
    ⟨1, [], some (.moduleNotFound "pandas"), fs⟩

/-- Column lookup with a default, used to state results of selection. -/
def DataFrame.getColD (df : DataFrame) (name : String) : ℕ → ℚ :=
  (df.getCol name).getD (fun _ => 0)

/-- The importance values appearing in a printed report, in print order. -/
def importanceValues : List OutputLine → List ℚ
  | [] => []
  | .importanceEntry _ v :: ls => v :: importanceValues ls
  | _ :: ls => importanceValues ls

/-- A numpy environment with constant draw streams. -/
def constEnv : NumpyEnv :=
  ⟨fun _ _ _ => 0, fun _ _ _ => 0, fun _ _ _ => false, 0, fun _ => 0⟩

/-- The same draw streams as `constEnv` but a different entry state and a
different entropy source: only the seeded streams agree. -/
def constEnvAlt : NumpyEnv :=
  ⟨fun _ _ _ => 0, fun _ _ _ => 0, fun _ _ _ => false, 7, fun _ => 1⟩

/-- A concrete importance vector of the right length summing to 1. -/
def witImportances : ℕ → List ℚ
  | 0 => []
  | k + 1 => 1 :: List.replicate k 0

/-- A concrete instance of the scikit-learn environment. -/
def skWitness : SklearnEnv where
  fit := fun X _ => ⟨witImportances X.cols.length⟩
  fit_features := by
    intro X y
    show (witImportances X.cols.length).length = X.cols.length
    cases X.cols.length <;> simp [witImportances]
  fit_nonneg := by
    intro X y v hv
    have hv2 : v ∈ witImportances X.cols.length := hv
    rcases h : X.cols.length with _ | k
    · rw [h] at hv2; simp [witImportances] at hv2
    · rw [h] at hv2
      simp only [witImportances, List.mem_cons, List.mem_replicate] at hv2
      rcases hv2 with rfl | ⟨-, rfl⟩ <;> norm_num
  fit_sum := by
    intro X y hne
    have hlen : X.cols.length ≠ 0 := fun h0 => hne (List.length_eq_zero.mp h0)
    show (witImportances X.cols.length).sum = 1
    rcases h : X.cols.length with _ | k
    · exact absurd h hlen
    · simp [witImportances, List.sum_replicate]
  predict := fun _ _ _ => 0
  mse := fun _ _ _ => 0
  r2 := fun _ _ _ => 0
  shuffle := fun _ _ i => i

/-- A constant 0.5-valued column. -/
def halfCol : ℕ → ℚ := fun _ => 0.5

/-- A constant 16:9 aspect-ratio column. -/
def arCol : ℕ → ℚ := fun _ => 1.778

/-- A well-formed 3-row input DataFrame carrying all required columns. -/
def exampleDF : DataFrame :=
  ⟨3, [("VisualComplexity", halfCol), ("ColorVariance", halfCol),
       ("EdgeDensity", halfCol), ("Brightness", halfCol),
       ("Contrast", halfCol), ("AspectRatio", arCol),
       ("ImportanceScore", halfCol)]⟩

/-- The feature matrix that loading `exampleDF` produces. -/
def exampleX : DataFrame :=
  ⟨3, [("VisualComplexity", halfCol), ("ColorVariance", halfCol),
       ("EdgeDensity", halfCol), ("Brightness", halfCol),
       ("Contrast", halfCol), ("AspectRatio", arCol)]⟩

/-- A DataFrame with the six feature columns but no target column. -/
def featuresOnlyDF : DataFrame :=
  ⟨3, [("VisualComplexity", halfCol), ("ColorVariance", halfCol),
       ("EdgeDensity", halfCol), ("Brightness", halfCol),
       ("Contrast", halfCol), ("AspectRatio", arCol)]⟩

/-- An empty filesystem. -/
def emptyFS : FileSystem := ⟨[], []⟩

/-! Helper lemmas shared by the claim theorems. -/

/-- When every requested column is present, `df[cs]` succeeds and returns
exactly the requested columns in the requested order. -/
theorem selectCols_eq_map (df : DataFrame) :
    ∀ cs : List String, (∀ c ∈ cs, (df.getCol c).isSome = true) →
      selectCols df cs = .ok (cs.map (fun c => (c, df.getColD c))) := by
  intro cs
  induction cs with
  | nil => intro _; rfl
  | cons c cs ih =>
    intro h
    have hc := h c (List.mem_cons_self c cs)
    rcases hv : df.getCol c with _ | v
    · rw [hv] at hc; simp at hc
    · have hrest := ih (fun x hx => h x (List.mem_cons_of_mem c hx))
      simp [selectCols, hv, hrest, DataFrame.getColD]

/-- Importance values of a pure report block. -/
theorem importanceValues_map (l : List (String × ℚ)) :
    importanceValues (l.map (fun r => OutputLine.importanceEntry r.1 r.2)) =
      l.map Prod.snd := by
  induction l with
  | nil => rfl
  | cons a l ih => simp [importanceValues, ih]

/-- The trainer's print lines: the fixed prefix followed by the report. -/
theorem importanceValues_train_model (sk : SklearnEnv) (X_train : DataFrame)
    (y_train : ℕ → ℚ) (X_test : DataFrame) (y_test : ℕ → ℚ) :
    importanceValues (train_model sk X_train y_train X_test y_test).1 =
      (reportRows (X_train.cols.map Prod.fst)
        (sk.fit X_train y_train).importances).map Prod.snd := by
  simp only [train_model]
  exact importanceValues_map _

/-- Reading back the file just written by `save_model`. -/
theorem save_model_readFile (fs : FileSystem) (m : FittedModel) (p : List String) :
    ((save_model fs m p).2).readFile p = some (serializeModel m) := by
  simp [save_model, FileSystem.writeFile, FileSystem.readFile, mkdirParents,
    List.find?_cons]

/-! Claim theorems. -/

/-- C1: when the input CSV path does not exist, `load_training_data` does
not raise — it substitutes the synthetic 1000-row dataset — and the run
completes successfully with exit status 0 and no uncaught error. -/
theorem missing_file_falls_back_and_run_succeeds (env : NumpyEnv)
    (path : List String) (sk : SklearnEnv) (fs : FileSystem) (args : Args) :
    (load_training_data env path .fileNotFound).2.isOk = true ∧
    (∃ X y, (load_training_data env path .fileNotFound).2 = .ok (X, y) ∧
      X.nrows = n_samples) ∧
    (runScript true true true env sk .fileNotFound fs args).exitCode = 0 ∧
    (runScript true true true env sk .fileNotFound fs args).uncaught = none := by
  refine ⟨rfl, ⟨_, _, rfl, rfl⟩, rfl, rfl⟩

/-- C2: every synthesized target value is the weighted linear combination
0.3·VisualComplexity + 0.25·EdgeDensity + 0.2·Contrast +
0.15·ColorVariance + 0.1·|Brightness − 0.5|, plus the Gaussian noise draw,
plus a 0.15 bonus when the key-frame indicator is set, clipped to [0,1];
and this is exactly the ImportanceScore column of the generated frame. -/
theorem sample_score_formula (env : NumpyEnv) (i : ℕ) :
    (create_sample_data env).getCol "ImportanceScore" =
      some (sampleData env).importanceScore ∧
    (sampleData env).importanceScore i =
      clip (0.3 * (sampleData env).visualComplexity i
          + 0.25 * (sampleData env).edgeDensity i
          + 0.2 * (sampleData env).contrast i
          + 0.15 * (sampleData env).colorVariance i
          + 0.1 * |(sampleData env).brightness i - 0.5|
          + (if (sampleData env).isKeyFrame i then 0.15 else 0)
          + 0.05 * env.normal sampleSeed 7 i) 0 1 := by
  refine ⟨rfl, ?_⟩
  simp only [sampleData]
  congr 1
  ring

/-- C3: every row of the synthesized dataset has an ImportanceScore inside
the closed interval [0,1], and the dataset has exactly 1000 rows. -/
theorem sample_score_in_unit_interval (env : NumpyEnv) (i : ℕ) :
    0 ≤ (sampleData env).importanceScore i ∧
    (sampleData env).importanceScore i ≤ 1 ∧
    (create_sample_data env).nrows = 1000 := by
  obtain ⟨x, hx⟩ : ∃ x, (sampleData env).importanceScore i = clip x 0 1 := ⟨_, rfl⟩
  rw [hx]
  refine ⟨le_min (le_max_right x 0) zero_le_one, min_le_right _ 1, rfl⟩

/-- C5: synthetic data generation is deterministic — two invocations whose
seeded draw streams agree produce identical DataFrames, regardless of the
generator state at entry or of any other entropy source. -/
theorem sample_generation_deterministic (e₁ e₂ : NumpyEnv)
    (hu : e₁.uniform = e₂.uniform) (hn : e₁.normal = e₂.normal)
    (hc : e₁.choice = e₂.choice) :
    create_sample_data e₁ = create_sample_data e₂ := by
  cases e₁
  cases e₂
  dsimp at hu hn hc
  subst hu hn hc
  rfl

/-- Witness for C5 at two concrete environments that differ in entry state
and entropy but share the seeded streams. -/
theorem sample_generation_deterministic_witness :
    create_sample_data constEnv = create_sample_data constEnvAlt :=
  sample_generation_deterministic constEnv constEnvAlt rfl rfl rfl

/-- C4: the train/test split produces a test subset of
`round(test_size * len(data))` rows with the training subset holding the
rest; in particular 1000 rows at `test_size = 0.2` give exactly 200 test
rows and 800 train rows. -/
theorem split_sizes_round (sk : SklearnEnv) (X : DataFrame) (y : ℕ → ℚ)
    (ts : ℚ) (h0 : 0 ≤ ts) (h1 : ts ≤ 1) :
    (((train_test_split sk X y ts).2.1.nrows : ℤ) = round (ts * (X.nrows : ℚ))) ∧
    (train_test_split sk X y ts).1.nrows + (train_test_split sk X y ts).2.1.nrows
      = X.nrows ∧
    (ts = 0.2 → X.nrows = 1000 →
      (train_test_split sk X y ts).2.1.nrows = 200 ∧
      (train_test_split sk X y ts).1.nrows = 800) := by
  have hcast : (0:ℚ) ≤ (X.nrows : ℚ) := Nat.cast_nonneg _
  have hnn : (0:ℚ) ≤ ts * (X.nrows : ℚ) := mul_nonneg h0 hcast
  have hround0 : 0 ≤ round (ts * (X.nrows : ℚ)) := by
    rw [round_eq]
    exact Int.floor_nonneg.mpr (by linarith)
  have hle : round (ts * (X.nrows : ℚ)) ≤ (X.nrows : ℤ) := by
    have hmul : ts * (X.nrows : ℚ) ≤ (X.nrows : ℚ) := by nlinarith
    calc round (ts * (X.nrows : ℚ)) ≤ round ((X.nrows : ℕ) : ℚ) := by
          rw [round_eq, round_eq]
          exact Int.floor_le_floor (by linarith)
      _ = (X.nrows : ℤ) := round_natCast X.nrows
  have ht : (round (ts * (X.nrows : ℚ))).toNat ≤ X.nrows := by
    rw [Int.toNat_le]
    exact_mod_cast hle
  simp only [train_test_split, DataFrame.takeRows]
  refine ⟨Int.toNat_of_nonneg hround0, by omega, ?_⟩
  intro hts hX
  rw [hts, hX]
  have h200 : (0.2 : ℚ) * ((1000 : ℕ) : ℚ) = ((200 : ℕ) : ℚ) := by norm_num
  rw [h200, round_natCast]
  constructor <;> rfl

/-- Witness for C4 at a concrete split of 1000 rows at the default 0.2
test fraction. -/
theorem split_sizes_round_witness :
    (train_test_split skWitness ⟨1000, []⟩ halfCol 0.2).2.1.nrows = 200 ∧
    (train_test_split skWitness ⟨1000, []⟩ halfCol 0.2).1.nrows = 800 :=
  (split_sizes_round skWitness ⟨1000, []⟩ halfCol 0.2 (by norm_num)
    (by norm_num)).2.2 rfl rfl

/-- C6: after training, the feature-importance report contains exactly six
importance values, printed in descending order, and they sum to 1. -/
theorem importance_report_six_descending_sum_one (sk : SklearnEnv)
    (X_train : DataFrame) (y_train : ℕ → ℚ) (X_test : DataFrame)
    (y_test : ℕ → ℚ) (h : X_train.cols.map Prod.fst = feature_columns) :
    (importanceValues (train_model sk X_train y_train X_test y_test).1).length = 6 ∧
    List.Sorted (fun a b : ℚ => b ≤ a)
      (importanceValues (train_model sk X_train y_train X_test y_test).1) ∧
    (importanceValues (train_model sk X_train y_train X_test y_test).1).sum = 1 := by
  rw [importanceValues_train_model]
  have hlen6 : X_train.cols.length = 6 := by
    have := congrArg List.length h
    simpa using this
  have himps : (sk.fit X_train y_train).importances.length = 6 :=
    (sk.fit_features X_train y_train).trans hlen6
  have hnames : (X_train.cols.map Prod.fst).length = 6 := by simpa using hlen6
  have hzlen : ((X_train.cols.map Prod.fst).zip
      (sk.fit X_train y_train).importances).length = 6 := by
    rw [List.length_zip, hnames, himps]
    exact min_self 6
  have hperm : List.Perm
      (reportRows (X_train.cols.map Prod.fst) (sk.fit X_train y_train).importances)
      ((X_train.cols.map Prod.fst).zip (sk.fit X_train y_train).importances) :=
    List.perm_insertionSort impGE _
  refine ⟨?_, ?_, ?_⟩
  · rw [List.length_map, hperm.length_eq, hzlen]
  · exact List.Pairwise.map Prod.snd (fun a b hab => hab)
      (List.sorted_insertionSort impGE _)
  · have hsum : ((reportRows (X_train.cols.map Prod.fst)
        (sk.fit X_train y_train).importances).map Prod.snd).sum =
        (((X_train.cols.map Prod.fst).zip
          (sk.fit X_train y_train).importances).map Prod.snd).sum :=
      (hperm.map Prod.snd).sum_eq
    rw [hsum, List.map_snd_zip _ _ (by rw [hnames, himps])]
    refine sk.fit_sum X_train y_train ?_
    intro hnil
    rw [hnil] at h
    simp [feature_columns] at h

/-- Witness for C6 on a concrete trainer environment and feature matrix. -/
theorem importance_report_witness :
    (importanceValues
      (train_model skWitness featuresOnlyDF halfCol featuresOnlyDF halfCol).1).sum
      = 1 :=
  (importance_report_six_descending_sum_one skWitness featuresOnlyDF halfCol
    featuresOnlyDF halfCol rfl).2.2

/-- C7 counterexample: with pandas unavailable — a required third-party
library — the process exits with status 1 via an uncaught ImportError and
the remediation message is never printed, refuting the claim that every
missing required library leads to a remediation message. -/
theorem missing_pandas_no_remediation :
    (runScript false true true constEnv skWitness .fileNotFound emptyFS
      defaultArgs).exitCode = 1 ∧
    (runScript false true true constEnv skWitness .fileNotFound emptyFS
      defaultArgs).uncaught = some (.moduleNotFound "pandas") ∧
    OutputLine.packagesMissing ∉
      (runScript false true true constEnv skWitness .fileNotFound emptyFS
        defaultArgs).output := by
  refine ⟨rfl, rfl, ?_⟩
  simp [runScript]

/-- C7 (amended): a missing pandas or numpy — imported outside the
try/except — terminates the startup with an uncaught ImportError, exit
status 1 and no remediation message; a missing guarded library
(scikit-learn, joblib) makes the process print the remediation lines and
exit with status 1; when every library is available and loading succeeds,
the process exits with status 0 after printing the fixed progress/report
sequence. -/
theorem exit_codes_and_output (env : NumpyEnv) (sk : SklearnEnv)
    (read : ReadCSV) (fs : FileSystem) (args : Args) :
    ((runScript false true true env sk read fs args).exitCode = 1 ∧
     (runScript false true true env sk read fs args).uncaught =
       some (.moduleNotFound "pandas") ∧
     (runScript false true true env sk read fs args).output = []) ∧
    ((runScript true false true env sk read fs args).exitCode = 1 ∧
     (runScript true false true env sk read fs args).uncaught =
       some (.moduleNotFound "numpy") ∧
     (runScript true false true env sk read fs args).output = []) ∧
    ((runScript true true false env sk read fs args).exitCode = 1 ∧
     (runScript true true false env sk read fs args).uncaught = none ∧
     (runScript true true false env sk read fs args).output =
       [OutputLine.packagesMissing, OutputLine.installHint]) ∧
    ∀ X y, (load_training_data env args.data_path read).2 = .ok (X, y) →
      (runScript true true true env sk read fs args).exitCode = 0 ∧
      (runScript true true true env sk read fs args).uncaught = none ∧
      (runScript true true true env sk read fs args).output =
        [OutputLine.separator, OutputLine.title, OutputLine.separator] ++
        (load_training_data env args.data_path read).1 ++
        [OutputLine.datasetSize X.nrows,
         OutputLine.featuresList (X.cols.map Prod.fst),
         OutputLine.trainingSetSize (train_test_split sk X y args.test_size).1.nrows,
         OutputLine.testSetSize (train_test_split sk X y args.test_size).2.1.nrows] ++
        (train_model sk (train_test_split sk X y args.test_size).1
          (train_test_split sk X y args.test_size).2.2.1
          (train_test_split sk X y args.test_size).2.1
          (train_test_split sk X y args.test_size).2.2.2).1 ++
        [OutputLine.modelSaved args.output_path] ++
        [OutputLine.separator, OutputLine.trainingComplete, OutputLine.separator] := by
  refine ⟨⟨rfl, rfl, rfl⟩, ⟨rfl, rfl, rfl⟩, ⟨rfl, rfl, rfl⟩, ?_⟩
  intro X y h
  simp only [runScript, if_true, h, save_model]
  refine ⟨trivial, trivial, ?_⟩
  simp

/-- Witness for C7 on a concrete run with every library present and a
well-formed input CSV. -/
theorem exit_codes_and_output_witness :
    (runScript true true true constEnv skWitness (.ok exampleDF) emptyFS defaultArgs).exitCode
      = 0 :=
  ((exit_codes_and_output constEnv skWitness (.ok exampleDF) emptyFS
    defaultArgs).2.2.2 exampleX halfCol rfl).1

/-- C8: every data-loading failure other than a missing file propagates
uncaught and terminates the process with a non-zero status; in particular
a CSV parse failure, and a CSV that parses but lacks the ImportanceScore
column. -/
theorem other_load_errors_uncaught (env : NumpyEnv) (sk : SklearnEnv)
    (fs : FileSystem) (args : Args) :
    (∀ read e, (load_training_data env args.data_path read).2 = .error e →
      (runScript true true true env sk read fs args).uncaught = some e ∧
      (runScript true true true env sk read fs args).exitCode = 1) ∧
    (load_training_data env args.data_path .parseError).2 =
      .error .parseError ∧
    ∀ df, (∀ c ∈ feature_columns, (df.getCol c).isSome = true) →
      df.getCol "ImportanceScore" = none →
      (load_training_data env args.data_path (.ok df)).2 =
        .error (.keyError "ImportanceScore") := by
  refine ⟨?_, rfl, ?_⟩
  · intro read e h
    simp only [runScript, if_true, h]
    exact ⟨trivial, trivial⟩
  · intro df hfeat htgt
    simp [load_training_data, selectCols_eq_map df feature_columns hfeat, htgt]

/-- Witness for C8: a parse error crashes the run, and a frame CSV without
the target column raises the KeyError. -/
theorem other_load_errors_uncaught_witness :
    (runScript true true true constEnv skWitness .parseError emptyFS defaultArgs).uncaught
      = some .parseError ∧
    (load_training_data constEnv defaultArgs.data_path (.ok featuresOnlyDF)).2 =
      .error (.keyError "ImportanceScore") :=
  ⟨((other_load_errors_uncaught constEnv skWitness emptyFS defaultArgs).1
      .parseError .parseError rfl).1,
   (other_load_errors_uncaught constEnv skWitness emptyFS defaultArgs).2.2
      featuresOnlyDF (by decide) rfl⟩

/-- C9: `save_model` writes a non-empty artifact at the requested path
after creating every missing ancestor directory of that path, failing in
neither the absent- nor present-parent case, and after a successful run
the artifact exists and is non-empty. -/
theorem save_model_artifact (fs : FileSystem) (m : FittedModel)
    (p : List String) :
    ((save_model fs m p).2).readFile p = some (serializeModel m) ∧
    serializeModel m ≠ [] ∧
    (∀ d ∈ ancestors (parentDir p), d ∈ ((save_model fs m p).2).dirs) ∧
    ∀ (env : NumpyEnv) (sk : SklearnEnv) (read : ReadCSV) (args : Args) X y,
      (load_training_data env args.data_path read).2 = .ok (X, y) →
      ∃ bs, ((runScript true true true env sk read fs args).fs).readFile args.output_path
          = some bs ∧ bs ≠ [] := by
  refine ⟨save_model_readFile fs m p, by simp [serializeModel], ?_, ?_⟩
  · intro d hd
    simp only [save_model, FileSystem.writeFile, mkdirParents]
    exact List.mem_append_left _ hd
  · intro env sk read args X y h
    simp only [runScript, if_true, h]
    exact ⟨_, save_model_readFile _ _ _, by simp [serializeModel]⟩

/-- Witness for C9 on a concrete successful run over the empty filesystem. -/
theorem save_model_artifact_witness :
    ∃ bs, ((runScript true true true constEnv skWitness (.ok exampleDF) emptyFS
        defaultArgs).fs).readFile defaultArgs.output_path = some bs ∧ bs ≠ [] :=
  (save_model_artifact emptyFS ⟨[]⟩ defaultArgs.output_path).2.2.2
    constEnv skWitness (.ok exampleDF) defaultArgs exampleX halfCol rfl

/-- C10: the loader returns as feature matrix exactly the six columns
VisualComplexity, ColorVariance, EdgeDensity, Brightness, Contrast,
AspectRatio in that order, dropping any other column of the input, so that
two inputs agreeing on those columns (and the target) load identically. -/
theorem feature_selection_exact (env : NumpyEnv) (path : List String)
    (df : DataFrame)
    (hfeat : ∀ c ∈ feature_columns, (df.getCol c).isSome = true)
    (htgt : (df.getCol "ImportanceScore").isSome = true) :
    (load_training_data env path (.ok df)).2 =
      .ok (⟨df.nrows, feature_columns.map (fun c => (c, df.getColD c))⟩,
           df.getColD "ImportanceScore") ∧
    ∀ df' : DataFrame, df'.nrows = df.nrows →
      (∀ c ∈ feature_columns, df'.getCol c = df.getCol c) →
      df'.getCol "ImportanceScore" = df.getCol "ImportanceScore" →
      (load_training_data env path (.ok df')).2 =
        (load_training_data env path (.ok df)).2 := by
  have hcanon : ∀ dfx : DataFrame,
      (∀ c ∈ feature_columns, (dfx.getCol c).isSome = true) →
      (dfx.getCol "ImportanceScore").isSome = true →
      (load_training_data env path (.ok dfx)).2 =
        .ok (⟨dfx.nrows, feature_columns.map (fun c => (c, dfx.getColD c))⟩,
             dfx.getColD "ImportanceScore") := by
    intro dfx hf ht
    rcases hy : dfx.getCol "ImportanceScore" with _ | yv
    · rw [hy] at ht; simp at ht
    · simp [load_training_data, selectCols_eq_map dfx feature_columns hf, hy,
        DataFrame.getColD]
  refine ⟨hcanon df hfeat htgt, ?_⟩
  intro df' hn hcols hisc
  have hfeat' : ∀ c ∈ feature_columns, (df'.getCol c).isSome = true :=
    fun c hc => by rw [hcols c hc]; exact hfeat c hc
  have htgt' : (df'.getCol "ImportanceScore").isSome = true := by
    rw [hisc]; exact htgt
  rw [hcanon df' hfeat' htgt', hcanon df hfeat htgt, hn]
  have hmap : feature_columns.map (fun c => (c, df'.getColD c)) =
      feature_columns.map (fun c => (c, df.getColD c)) :=
    List.map_congr_left (fun c hc => by
      simp [DataFrame.getColD, hcols c hc])
  rw [hmap]
  have : df'.getColD "ImportanceScore" = df.getColD "ImportanceScore" := by
    simp [DataFrame.getColD, hisc]
  rw [this]

/-- Witness for C10 on a concrete well-formed input DataFrame. -/
theorem feature_selection_exact_witness :
    (load_training_data constEnv defaultArgs.data_path (.ok exampleDF)).2 =
      .ok (⟨exampleDF.nrows,
            feature_columns.map (fun c => (c, exampleDF.getColD c))⟩,
           exampleDF.getColD "ImportanceScore") :=
  (feature_selection_exact constEnv defaultArgs.data_path exampleDF
    (by decide) (by decide)).1

end TrainFrameImportance
